import Mathlib

/-!
Verification of the review-analysis engine (sentiment labelling, sentiment
distribution, aspect statistics, priority ranking, data cleaning and
change-point detection) of the `review-analysis-app` repository.

The Python source is shallowly embedded: pandas DataFrames become Lean lists,
the ratings column becomes `List ℚ` (or `List (Option ℚ)` where nulls/NaN
matter), and Python exceptions become `Except PyError`.  Numeric code is
modelled over exact rationals.  Because `Rat.add`/`Rat.mul`/... are
`@[irreducible]` in this toolchain, the embedding computes with its own
kernel-reducible rational operations `qadd`/`qsub`/`qmul`/`qdiv` built on
`Rat.divInt`; they agree with the standard field operations (see `qadd_eq`
and friends below).
-/

namespace ReviewAnalysis

/-- Kernel-reducible addition on `ℚ`, agreeing with `(· + ·)`. -/
def qadd (a b : ℚ) : ℚ := Rat.divInt (a.num * (b.den : ℤ) + b.num * (a.den : ℤ)) ((a.den : ℤ) * (b.den : ℤ))

/-- Kernel-reducible subtraction on `ℚ`, agreeing with `(· - ·)`. -/
def qsub (a b : ℚ) : ℚ := Rat.divInt (a.num * (b.den : ℤ) - b.num * (a.den : ℤ)) ((a.den : ℤ) * (b.den : ℤ))

/-- Kernel-reducible multiplication on `ℚ`, agreeing with `(· * ·)`. -/
def qmul (a b : ℚ) : ℚ := Rat.divInt (a.num * b.num) ((a.den : ℤ) * (b.den : ℤ))

/-- Kernel-reducible division on `ℚ`, agreeing with `(· / ·)` (and sending
division by `0` to `0`, as `ℚ` does). -/
def qdiv (a b : ℚ) : ℚ := Rat.divInt (a.num * (b.den : ℤ)) ((a.den : ℤ) * b.num)

theorem qadd_eq (a b : ℚ) : qadd a b = a + b := by
  have ha : ((a.den : ℤ) : ℚ) ≠ 0 := by exact_mod_cast a.den_nz
  have hb : ((b.den : ℤ) : ℚ) ≠ 0 := by exact_mod_cast b.den_nz
  rw [qadd, Rat.divInt_eq_div]
  conv_rhs => rw [← Rat.num_div_den a, ← Rat.num_div_den b]
  rw [div_add_div _ _ (by exact_mod_cast a.den_nz) (by exact_mod_cast b.den_nz)]
  push_cast
  ring_nf

theorem qsub_eq (a b : ℚ) : qsub a b = a - b := by
  rw [qsub, Rat.divInt_eq_div]
  conv_rhs => rw [← Rat.num_div_den a, ← Rat.num_div_den b]
  rw [div_sub_div _ _ (by exact_mod_cast a.den_nz) (by exact_mod_cast b.den_nz)]
  push_cast
  ring_nf

theorem qmul_eq (a b : ℚ) : qmul a b = a * b := by
  rw [qmul, Rat.divInt_eq_div]
  conv_rhs => rw [← Rat.num_div_den a, ← Rat.num_div_den b]
  rw [div_mul_div_comm]
  push_cast
  ring_nf

theorem qdiv_eq (a b : ℚ) : qdiv a b = a / b := by
  rw [qdiv, Rat.divInt_eq_div]
  rcases eq_or_ne b 0 with hb | hb
  · subst hb
    simp
  · conv_rhs => rw [← Rat.num_div_den a, ← Rat.num_div_den b]
    have hbn : ((b.num : ℤ) : ℚ) ≠ 0 := by
      exact_mod_cast Rat.num_ne_zero.mpr hb
    rw [div_div_div_eq]
    push_cast
    ring_nf

/-- Sum of a list of rationals via `qadd` (agrees with `List.sum`). -/
def qsum : List ℚ → ℚ
  | [] => 0
  | x :: xs => qadd x (qsum xs)

theorem qsum_eq (xs : List ℚ) : qsum xs = xs.sum := by
  induction xs with
  | nil => rfl
  | cons x xs ih => rw [qsum, qadd_eq, ih, List.sum_cons]

/-- Arithmetic mean of a list of rationals (pandas `Series.mean` over the
non-null values handed to it). -/
def qmean (xs : List ℚ) : ℚ := qdiv (qsum xs) ((xs.length : ℤ) : ℚ)

/-- Python exceptions and the spec's error taxonomy, as one vocabulary.  The
source code itself only ever produces `zeroDivision` (Python
`ZeroDivisionError`), `keyError` (pandas column access on a missing column)
and `badSegmentationParameters` (the `ruptures` segmentation library rejecting
a too-short signal); `schemaError`, `insufficientData` and `emptyDataset` are
the error classes named by the specification, carried here so that claims
about them can be stated. -/
inductive PyError where
  | schemaError (missing : List String)
  | insufficientData
  | emptyDataset
  | zeroDivision
  | keyError (col : String)
  | badSegmentationParameters
  deriving DecidableEq, Repr

instance exceptDecEq {ε α : Type} [DecidableEq ε] [DecidableEq α] :
    DecidableEq (Except ε α) := fun x y =>
  match x, y with
  | Except.ok a, Except.ok b =>
      if h : a = b then isTrue (by rw [h])
      else isFalse (fun hc => h (Except.ok.inj hc))
  | Except.error a, Except.error b =>
      if h : a = b then isTrue (by rw [h])
      else isFalse (fun hc => h (Except.error.inj hc))
  | Except.ok _, Except.error _ => isFalse (fun hc => Except.noConfusion hc)
  | Except.error _, Except.ok _ => isFalse (fun hc => Except.noConfusion hc)

/-- Sentiment labels (긍정 / 부정 / 중립 in the source). -/
inductive Sentiment where
  | positive
  | negative
  | neutral
  deriving DecidableEq, Repr

/-- `ReviewAnalyzer._label_sentiment` (analysis.py:171-178): `if rating >=
thresholds['positive']: '긍정' elif rating <= thresholds['negative']: '부정'
else: '중립'`, with `low = thresholds['negative']` and `high =
thresholds['positive']`. -/
def label_sentiment (low high r : ℚ) : Sentiment :=
  if high ≤ r then Sentiment.positive
  else if r ≤ low then Sentiment.negative
  else Sentiment.neutral

/-- Number of records carrying a given sentiment label, as read off the
precomputed 감정 column by `value_counts().get(label, 0)`. -/
def countSentiment (low high : ℚ) (s : Sentiment) (ratings : List ℚ) : ℕ :=
  (ratings.filter (fun r => label_sentiment low high r == s)).length

/-- The record returned by `_calculate_sentiment_distribution`. -/
structure SentimentDist where
  positiveCount : ℕ
  negativeCount : ℕ
  neutralCount : ℕ
  positiveRatio : ℚ
  negativeRatio : ℚ
  neutralRatio : ℚ
  deriving DecidableEq, Repr

/-- `ReviewAnalyzer._calculate_sentiment_distribution` (analysis.py:102-119):
counts per label and `count / total` ratios with `total = len(self.df)`.
When the record set is empty, the Python expression `positive_count / total`
raises `ZeroDivisionError`; the embedding surfaces that as
`Except.error PyError.zeroDivision`. -/
def calculate_sentiment_distribution (low high : ℚ) (ratings : List ℚ) :
    Except PyError SentimentDist :=
  let total := ratings.length
  if total = 0 then Except.error PyError.zeroDivision
  else
    let pos := countSentiment low high Sentiment.positive ratings
    let neg := countSentiment low high Sentiment.negative ratings
    let neu := countSentiment low high Sentiment.neutral ratings
    Except.ok
      { positiveCount := pos
        negativeCount := neg
        neutralCount := neu
        positiveRatio := qdiv ((pos : ℤ) : ℚ) ((total : ℤ) : ℚ)
        negativeRatio := qdiv ((neg : ℤ) : ℚ) ((total : ℤ) : ℚ)
        neutralRatio := qdiv ((neu : ℤ) : ℚ) ((total : ℤ) : ℚ) }

/-- C1: with thresholds `low < high`, `_label_sentiment` realises a
partition of the rating domain — a rating is labelled Positive exactly when
`high ≤ r`, Negative exactly when `r ≤ low`, Neutral exactly when
`low < r < high`, and no rating satisfies two of these threshold conditions
at once (each rating gets exactly one of the three labels). -/
theorem sentiment_partition (low high r : ℚ) (h : low < high) :
    (label_sentiment low high r = Sentiment.positive ↔ high ≤ r) ∧
    (label_sentiment low high r = Sentiment.negative ↔ r ≤ low) ∧
    (label_sentiment low high r = Sentiment.neutral ↔ low < r ∧ r < high) ∧
    ¬(high ≤ r ∧ r ≤ low) := by
  unfold label_sentiment
  split_ifs with hp hn
  · have hnl : ¬ r ≤ low := fun hle => absurd h (not_lt.mpr (le_trans hp hle))
    exact ⟨⟨fun _ => hp, fun _ => rfl⟩,
           ⟨fun hc => absurd hc (by decide), fun hle => absurd hle hnl⟩,
           ⟨fun hc => absurd hc (by decide), fun hc => absurd hp (not_le.mpr hc.2)⟩,
           fun hc => hnl hc.2⟩
  · exact ⟨⟨fun hc => absurd hc (by decide), fun hc => absurd hc hp⟩,
           ⟨fun _ => hn, fun _ => rfl⟩,
           ⟨fun hc => absurd hc (by decide), fun hc => absurd hn (not_le.mpr hc.1)⟩,
           fun hc => hp hc.1⟩
  · exact ⟨⟨fun hc => absurd hc (by decide), fun hc => absurd hc hp⟩,
           ⟨fun hc => absurd hc (by decide), fun hc => absurd hc hn⟩,
           ⟨fun _ => ⟨not_le.mp hn, not_le.mp hp⟩, fun _ => rfl⟩,
           fun hc => hp hc.1⟩

theorem sentiment_partition_witness :
    (label_sentiment 6 8 7 = Sentiment.positive ↔ (8 : ℚ) ≤ 7) ∧
    (label_sentiment 6 8 7 = Sentiment.negative ↔ (7 : ℚ) ≤ 6) ∧
    (label_sentiment 6 8 7 = Sentiment.neutral ↔ (6 : ℚ) < 7 ∧ (7 : ℚ) < 8) ∧
    ¬((8 : ℚ) ≤ 7 ∧ (7 : ℚ) ≤ 6) :=
  sentiment_partition 6 8 7 (by norm_num)

/-- C2 counterexample: on the ratings `[9,9,9,3,3,6]` with thresholds
`(low, high) = (6, 8)` the code labels the rating `6` Negative (because
`6 ≤ low`), so the Negative count is 3 and the Neutral count is 0 — not 2
and 1 as the claim states. -/
theorem sentiment_example_counterexample :
    countSentiment 6 8 Sentiment.negative [9, 9, 9, 3, 3, 6] = 3 ∧
    ¬(countSentiment 6 8 Sentiment.negative [9, 9, 9, 3, 3, 6] = 2 ∧
      countSentiment 6 8 Sentiment.neutral [9, 9, 9, 3, 3, 6] = 1) := by
  decide

/-- C2 (amended): on the ratings `[9,9,9,3,3,6]` with thresholds
`(low, high) = (6, 8)` the sentiment distribution has Positive count 3,
Negative count 3, Neutral count 0 and positive ratio `1/2`. -/
theorem sentiment_example_distribution :
    calculate_sentiment_distribution 6 8 [9, 9, 9, 3, 3, 6] =
      Except.ok
        { positiveCount := 3
          negativeCount := 3
          neutralCount := 0
          positiveRatio := 1 / 2
          negativeRatio := 1 / 2
          neutralRatio := 0 } := by
  have h12 : (1 / 2 : ℚ) = Rat.divInt 1 2 := by
    rw [Rat.divInt_eq_div]
    norm_num
  rw [h12]
  decide

/-- C5 counterexample: on an empty record set the sentiment-distribution
aggregation fails with the Python `ZeroDivisionError` (the expression
`positive_count / total` with `total = 0`), not with an `EmptyDatasetError`
— no such error class exists in the code. -/
theorem empty_ratio_counterexample :
    calculate_sentiment_distribution 6 8 [] = Except.error PyError.zeroDivision ∧
    PyError.zeroDivision ≠ PyError.emptyDataset := by
  decide

/-- C5 (amended): for every threshold pair, the sentiment-ratio aggregation
on an empty record set fails by dividing by zero (Python
`ZeroDivisionError`); it does not silently produce a NaN result, but the
error raised is not an `EmptyDatasetError`. -/
theorem empty_ratio_amended (low high : ℚ) :
    calculate_sentiment_distribution low high [] = Except.error PyError.zeroDivision := by
  rfl

/-- A review record as the analyzer sees it: its precomputed 통합_텍스트
(concatenated title/body/evaluation text) and its 평점 rating. -/
structure Record where
  text : String
  rating : ℚ
  deriving DecidableEq, Repr

/-- Python's substring containment `keyword in text`. -/
def containsKeyword (text kw : String) : Bool := decide (kw.data <:+: text.data)

/-- A record belongs to an aspect iff its canonical text contains at least
one of the aspect's trigger keywords (`any(keyword in text for keyword in
keywords)` in `_precompute_keyword_matches`). -/
def matchesAspect (keywords : List String) (rec : Record) : Bool :=
  keywords.any (fun k => containsKeyword rec.text k)

/-- The record selection used for negative-keyword counting
(analysis.py:70): `self.df[self.df['평점'] <= self.sentiment_thresholds['negative']]`. -/
def negative_reviews (low : ℚ) (df : List Record) : List Record :=
  df.filter (fun rec => decide (rec.rating ≤ low))

/-- The label-based selection the spec describes: the records whose
sentiment label is Negative. -/
def negativeLabelled (low high : ℚ) (df : List Record) : List Record :=
  df.filter (fun rec => decide (label_sentiment low high rec.rating = Sentiment.negative))

/-- C10: under `low < high`, the threshold-based selection `rating ≤ low`
used by `_precompute_keyword_matches` selects exactly the records whose
sentiment label is Negative, for every record set. -/
theorem negative_filter_refines_label (low high : ℚ) (h : low < high)
    (df : List Record) :
    negative_reviews low df = negativeLabelled low high df := by
  unfold negative_reviews negativeLabelled
  apply List.filter_congr
  intro rec _
  rw [decide_eq_decide]
  unfold label_sentiment
  by_cases hp : high ≤ rec.rating
  · have hnl : ¬ rec.rating ≤ low := fun hle => absurd h (not_lt.mpr (le_trans hp hle))
    simp only [if_pos hp]
    exact ⟨fun hle => absurd hle hnl, fun hc => absurd hc (by decide)⟩
  · by_cases hn : rec.rating ≤ low
    · simp only [if_neg hp, if_pos hn]
      simp [hn]
    · simp only [if_neg hp, if_neg hn]
      exact ⟨fun hle => absurd hle hn, fun hc => absurd hc (by decide)⟩

theorem negative_filter_refines_label_witness :
    negative_reviews 6 [{ text := "bad", rating := 3 }, { text := "good", rating := 9 }] =
      negativeLabelled 6 8 [{ text := "bad", rating := 3 }, { text := "good", rating := 9 }] :=
  negative_filter_refines_label 6 8 (by norm_num) _

/-- The aspect lexicon `ASPECT_KEYWORDS` of config.py, in declaration order
(Python dicts preserve insertion order). -/
def ASPECT_KEYWORDS : List (String × List String) := [
  ("청결", ["청결", "깨끗", "더럽", "지저분", "먼지", "바닥", "청소", "깔끔", "위생"]),
  ("시설/온수", ["시설", "온수", "샤워", "온도", "따뜻", "차갑", "잠금장치", "리모델링",
    "노후", "낡", "시설", "객실", "침대", "TV", "난방", "에어컨"]),
  ("직원응대", ["직원", "응대", "서비스", "친절", "불친절", "태도", "안내", "프론트",
    "매니저", "부장", "고문", "격양", "말문막힘"]),
  ("가격", ["가격", "비싸", "저렴", "가성비", "요금", "비용", "패키지", "강정",
    "조식", "식사", "음식", "맛있", "맛없"]),
  ("온천수", ["온천", "탄산", "온천수", "탕", "사우나", "찜질방", "목욕", "온천욕",
    "온천물", "효능", "피로", "힐링", "선녀탕", "노천탕"])]

/-- Round-half-to-even of an exact rational to an integer (Python's `round`
applied to an exactly representable value). -/
def roundHalfEven (q : ℚ) : ℤ :=
  let f := Rat.floor q
  let frac := qsub q (f : ℚ)
  if frac < Rat.divInt 1 2 then f
  else if Rat.divInt 1 2 < frac then f + 1
  else if f % 2 = 0 then f else f + 1

/-- Python `round(x, d)` over exact rationals. -/
def roundTo (d : ℕ) (q : ℚ) : ℚ :=
  qdiv ((roundHalfEven (qmul q (((10 ^ d : ℕ) : ℤ) : ℚ)) : ℤ) : ℚ) (((10 ^ d : ℕ) : ℤ) : ℚ)

/-- The statistics dictionary produced per aspect by
`_analyze_single_aspect_optimized`. -/
structure AspectStats where
  matchedCount : ℕ
  positiveCount : ℕ
  negativeCount : ℕ
  neutralCount : ℕ
  positiveRatio : ℚ
  negativeRatio : ℚ
  neutralRatio : ℚ
  meanRating : ℚ
  deriving DecidableEq, Repr

/-- The all-zero statistics returned for an aspect with no matching
reviews (analysis.py:205-215). -/
def zeroAspectStats : AspectStats :=
  { matchedCount := 0, positiveCount := 0, negativeCount := 0, neutralCount := 0,
    positiveRatio := 0, negativeRatio := 0, neutralRatio := 0, meanRating := 0 }

/-- `_analyze_single_aspect_optimized` (analysis.py:199-234). -/
def analyze_single_aspect (low high : ℚ) (keywords : List String)
    (df : List Record) : AspectStats :=
  let matched := df.filter (matchesAspect keywords)
  if matched.length = 0 then zeroAspectStats
  else
    let pos := (matched.filter
      (fun rec => decide (label_sentiment low high rec.rating = Sentiment.positive))).length
    let neg := (matched.filter
      (fun rec => decide (label_sentiment low high rec.rating = Sentiment.negative))).length
    let neu := (matched.filter
      (fun rec => decide (label_sentiment low high rec.rating = Sentiment.neutral))).length
    let total := matched.length
    { matchedCount := total, positiveCount := pos, negativeCount := neg, neutralCount := neu,
      positiveRatio := roundTo 1 (qmul (qdiv (pos : ℚ) (total : ℚ)) 100),
      negativeRatio := roundTo 1 (qmul (qdiv (neg : ℚ) (total : ℚ)) 100),
      neutralRatio := roundTo 1 (qmul (qdiv (neu : ℚ) (total : ℚ)) 100),
      meanRating := roundTo 2 (qmean (matched.map Record.rating)) }

/-- `analyze_aspects` / `_summarize_aspects`: one statistics row per lexicon
aspect, in declaration order, every aspect present (zero matches included). -/
def aspect_summary (low high : ℚ) (lex : List (String × List String))
    (df : List Record) : List (String × AspectStats) :=
  lex.map (fun p => (p.1, analyze_single_aspect low high p.2 df))

/-- One row of the priority ranking DataFrame (analysis.py:327-333). -/
structure PriorityRow where
  aspect : String
  negativeRatio : ℚ
  mentionFrequency : ℚ
  score : ℚ
  matchedCount : ℕ
  deriving DecidableEq, Repr

/-- The rows accumulated by `calculate_priority_scores` before sorting
(analysis.py:314-333): lexicon declaration order, restricted to aspects with
`매칭_리뷰_수 > 0`, score = `round((neg_ratio/100 * w_neg + count/len(df) *
w_freq) * 100, 2)`. -/
def priorityRows (low high wNeg wFreq : ℚ) (lex : List (String × List String))
    (df : List Record) : List PriorityRow :=
  (aspect_summary low high lex df).filterMap (fun p =>
    if 0 < p.2.matchedCount then
      some { aspect := p.1
             negativeRatio := p.2.negativeRatio
             mentionFrequency := roundTo 1 (qmul (qdiv (p.2.matchedCount : ℚ) (df.length : ℚ)) 100)
             score := roundTo 2 (qmul
               (qadd (qmul (qdiv p.2.negativeRatio 100) wNeg)
                     (qmul (qdiv (p.2.matchedCount : ℚ) (df.length : ℚ)) wFreq)) 100)
             matchedCount := p.2.matchedCount }
    else none)

/-- Ascending comparison on the 우선순위_점수 column. -/
def scoreLE (a b : PriorityRow) : Prop := a.score ≤ b.score

instance : DecidableRel scoreLE := fun a b => inferInstanceAs (Decidable (a.score ≤ b.score))

/-- `calculate_priority_scores` (analysis.py:305-340).  The final
`sort_values('우선순위_점수', ascending=False)` goes through pandas'
`nargsort`, which for a descending sort reverses the values and the index
array, takes an ascending argsort, and reverses the resulting indexer again
(pandas' stability fix for its issue 6399).  numpy's sort on an array of
this size runs its insertion sort, which is stable, so the ranking is
sorted descending with equal-score rows kept in their original (lexicon
declaration) order: reverse, stable ascending sort, reverse. -/
def calculate_priority_scores (low high wNeg wFreq : ℚ)
    (lex : List (String × List String)) (df : List Record) : List PriorityRow :=
  (List.insertionSort scoreLE (priorityRows low high wNeg wFreq lex df).reverse).reverse

/-- Pairs of a list whose first components are pairwise distinct are
determined by their first component. -/
theorem eq_of_fst_eq_of_nodup {α β : Type} {l : List (α × β)}
    (hnd : (l.map Prod.fst).Nodup) {x y : α × β} (hx : x ∈ l) (hy : y ∈ l)
    (hfst : x.1 = y.1) : x = y := by
  induction l with
  | nil => cases hx
  | cons hd tl ih =>
    rcases List.mem_cons.mp hx with hx1 | hx1 <;> rcases List.mem_cons.mp hy with hy1 | hy1
    · rw [hx1, hy1]
    · exfalso
      apply (List.nodup_cons.mp hnd).1
      rw [show hd.1 = y.1 from hx1 ▸ hfst]
      exact List.mem_map_of_mem Prod.fst hy1
    · exfalso
      apply (List.nodup_cons.mp hnd).1
      rw [show hd.1 = x.1 from hy1 ▸ hfst.symm]
      exact List.mem_map_of_mem Prod.fst hx1
    · exact ih (List.nodup_cons.mp hnd).2 hx1 hy1

/-- C7: an aspect with zero matching records is still reported in the aspect
summary, with all-zero statistics, but is excluded from the priority
ranking (for a lexicon with distinct aspect names, as `ASPECT_KEYWORDS`
is). -/
theorem zero_match_aspects (low high wNeg wFreq : ℚ)
    (lex : List (String × List String)) (df : List Record)
    (a : String) (kws : List String)
    (hnd : (lex.map Prod.fst).Nodup) (hmem : (a, kws) ∈ lex)
    (hzero : (df.filter (matchesAspect kws)).length = 0) :
    (a, zeroAspectStats) ∈ aspect_summary low high lex df ∧
    ∀ row ∈ calculate_priority_scores low high wNeg wFreq lex df, row.aspect ≠ a := by
  have hz : analyze_single_aspect low high kws df = zeroAspectStats := by
    unfold analyze_single_aspect
    simp [hzero]
  constructor
  · unfold aspect_summary
    exact List.mem_map.mpr ⟨(a, kws), hmem, by simp [hz]⟩
  · intro row hrow heq
    rw [calculate_priority_scores, List.mem_reverse, List.mem_insertionSort,
      List.mem_reverse] at hrow
    rw [priorityRows] at hrow
    rcases List.mem_filterMap.mp hrow with ⟨p, hp, hfp⟩
    by_cases hc : 0 < p.2.matchedCount
    · rw [if_pos hc] at hfp
      have haspect : p.1 = a := by
        have := congrArg PriorityRow.aspect (Option.some.inj hfp)
        simpa using heq ▸ this
      rcases List.mem_map.mp hp with ⟨q, hq, hpq⟩
      have hq1 : q.1 = a := by
        have := congrArg Prod.fst hpq
        simpa using haspect ▸ this
      have hqeq : q = (a, kws) := eq_of_fst_eq_of_nodup hnd hq hmem (by simpa using hq1)
      have hp2 : p.2 = zeroAspectStats := by
        have := congrArg Prod.snd hpq
        simp only at this
        rw [← this, hqeq]
        simpa using hz
      rw [hp2] at hc
      exact absurd hc (by decide)
    · rw [if_neg hc] at hfp
      exact Option.noConfusion hfp

def dfOneReview : List Record := [{ text := "청결", rating := 9 }]

theorem zero_match_aspects_witness :
    ("가격", zeroAspectStats) ∈ aspect_summary 6 8 ASPECT_KEYWORDS dfOneReview ∧
    ∀ row ∈ calculate_priority_scores 6 8 (Rat.divInt 7 10) (Rat.divInt 3 10)
        ASPECT_KEYWORDS dfOneReview, row.aspect ≠ "가격" :=
  zero_match_aspects 6 8 (Rat.divInt 7 10) (Rat.divInt 3 10) ASPECT_KEYWORDS dfOneReview
    "가격" ["가격", "비싸", "저렴", "가성비", "요금", "비용", "패키지", "강정",
      "조식", "식사", "음식", "맛있", "맛없"]
    (by decide) (by decide) (by decide)

def dfTwoReviews : List Record :=
  [{ text := "청결", rating := 9 }, { text := "가격", rating := 9 }]

/-- C6: the priority ranking is sorted descending by priority score and the
sort is stable: any two aspects with equal priority scores appear in the
ranking in their original lexicon declaration order (the order of
`priorityRows`). -/
theorem priority_sort_stable (low high wNeg wFreq : ℚ)
    (lex : List (String × List String)) (df : List Record)
    (a b : PriorityRow)
    (hpair : List.Sublist [a, b] (priorityRows low high wNeg wFreq lex df))
    (heq : a.score = b.score) :
    List.Sorted (fun x y : PriorityRow => y.score ≤ x.score)
      (calculate_priority_scores low high wNeg wFreq lex df) ∧
    List.Sublist [a, b] (calculate_priority_scores low high wNeg wFreq lex df) := by
  constructor
  · haveI : IsTotal PriorityRow scoreLE := ⟨fun x y => le_total x.score y.score⟩
    haveI : IsTrans PriorityRow scoreLE := ⟨fun _ _ _ hxy hyz => le_trans hxy hyz⟩
    have hs := List.sorted_insertionSort scoreLE
      (priorityRows low high wNeg wFreq lex df).reverse
    rw [calculate_priority_scores, List.Sorted, List.pairwise_reverse]
    exact hs.imp (fun h => h)
  · have h0 : List.Sublist [b, a] (priorityRows low high wNeg wFreq lex df).reverse := by
      have := hpair.reverse
      simpa using this
    have h1 : List.Sublist [b, a]
        (List.insertionSort scoreLE (priorityRows low high wNeg wFreq lex df).reverse) :=
      List.pair_sublist_insertionSort (show scoreLE b a from le_of_eq heq.symm) h0
    have h2 := h1.reverse
    rw [calculate_priority_scores]
    simpa using h2

def rowCleanliness : PriorityRow :=
  { aspect := "청결", negativeRatio := 0, mentionFrequency := 50, score := 15, matchedCount := 1 }

def rowPrice : PriorityRow :=
  { aspect := "가격", negativeRatio := 0, mentionFrequency := 50, score := 15, matchedCount := 1 }

theorem priority_sort_stable_witness :
    List.Sorted (fun x y : PriorityRow => y.score ≤ x.score)
      (calculate_priority_scores 6 8 (Rat.divInt 7 10) (Rat.divInt 3 10)
        ASPECT_KEYWORDS dfTwoReviews) ∧
    List.Sublist [rowCleanliness, rowPrice] (calculate_priority_scores 6 8 (Rat.divInt 7 10)
      (Rat.divInt 3 10) ASPECT_KEYWORDS dfTwoReviews) :=
  priority_sort_stable 6 8 (Rat.divInt 7 10) (Rat.divInt 3 10) ASPECT_KEYWORDS
    dfTwoReviews rowCleanliness rowPrice
    (by rw [show priorityRows 6 8 (Rat.divInt 7 10) (Rat.divInt 3 10) ASPECT_KEYWORDS
          dfTwoReviews = [rowCleanliness, rowPrice] from by decide])
    (by decide)

/-- pandas `Series.quantile(q)` with the default linear interpolation over
the non-null values: on the ascending sort `s` of the `n` values, the result
is `s[i] + frac * (s[i+1] - s[i])` where `i = floor(q*(n-1))` and
`frac = q*(n-1) - i`; `none` on an empty series (pandas returns NaN). -/
def quantileLinear (q : ℚ) (xs : List ℚ) : Option ℚ :=
  match xs with
  | [] => none
  | _ :: _ =>
    let s := List.insertionSort (fun a b : ℚ => a ≤ b) xs
    let pos := qmul q (qsub (xs.length : ℚ) 1)
    let i := (Rat.floor pos).toNat
    let frac := qsub pos (i : ℚ)
    some (qadd (s.getD i 0) (qmul frac (qsub (s.getD (i + 1) (s.getD i 0)) (s.getD i 0))))

/-- pandas `Series.median()` over the non-null values: the 0.5 quantile with
linear interpolation (mean of the two central elements for even length). -/
def median (xs : List ℚ) : Option ℚ := quantileLinear (Rat.divInt 1 2) xs

/-- `DataLoader._preprocess_ratings` (load.py:79-92) after the numeric
coercion: ratings outside `[1, 10]` are set to null (NaN); nulls stay
null. -/
def preprocess_ratings (rs : List (Option ℚ)) : List (Option ℚ) :=
  rs.map (fun r =>
    match r with
    | some v => if v < 1 ∨ 10 < v then none else some v
    | none => none)

/-- `DataLoader._handle_missing_values` (load.py:109-126), restricted to the
ratings column: when at least one rating is null, `fillna(median)` replaces
the nulls by the median of the non-null ratings; when every rating is null
the median itself is NaN and `fillna(NaN)` leaves the column unchanged — no
error is raised. -/
def handle_missing_values (rs : List (Option ℚ)) : List (Option ℚ) :=
  if 0 < rs.countP (fun r => r.isNone) then
    match median (rs.filterMap id) with
    | some m => rs.map (fun r => some (r.getD m))
    | none => rs
  else rs

/-- `DataLoader._handle_outliers` (load.py:128-142): interquartile bounds
`Q1 - 1.5*IQR` and `Q3 + 1.5*IQR` on the non-null ratings, out-of-band
values clamped to the violated bound.  NaN compares false against both
bounds, so null ratings are untouched; with no non-null rating the quantiles
are NaN and nothing is clamped. -/
def handle_outliers (rs : List (Option ℚ)) : List (Option ℚ) :=
  match quantileLinear (Rat.divInt 1 4) (rs.filterMap id),
        quantileLinear (Rat.divInt 3 4) (rs.filterMap id) with
  | some q1, some q3 =>
    rs.map (Option.map (fun v =>
      if v < qsub q1 (qmul (Rat.divInt 3 2) (qsub q3 q1))
      then qsub q1 (qmul (Rat.divInt 3 2) (qsub q3 q1))
      else if qadd q3 (qmul (Rat.divInt 3 2) (qsub q3 q1)) < v
      then qadd q3 (qmul (Rat.divInt 3 2) (qsub q3 q1))
      else v))
  | _, _ => rs

/-- The required columns of `DataLoader.validate_schema` (load.py:40). -/
def expected_columns : List String :=
  ["제목", "내용", "평점", "작성일자", "평가", "이용자", "구분"]

/-- The missing required columns, `set(expected_columns) - set(df.columns)`
(only emptiness and membership matter; the embedding keeps declaration
order). -/
def missing_columns (cols : List String) : List String :=
  expected_columns.filter (fun c => !(cols.contains c))

/-- `DataLoader.validate_schema` (load.py:38-52): logs the missing columns
and returns a Bool — it raises nothing. -/
def validate_schema (cols : List String) : Bool :=
  (missing_columns cols).isEmpty

/-- A raw input table, reduced to what the rating-cleaning pipeline
inspects: the column names present and the ratings column after
`pd.to_numeric(..., errors='coerce')` (unparseable entries null). -/
structure RawTable where
  cols : List String
  ratings : List (Option ℚ)
  deriving DecidableEq, Repr

/-- `DataLoader.preprocess_data` (load.py:54-77), restricted to its effect
on the ratings column.  Accessing the `평점` or `작성일자` column when it is
absent raises a pandas `KeyError`; the date and text steps touch only other
columns (and guard their text-column accesses with membership tests), so
they do not affect the ratings. -/
def preprocess_data (t : RawTable) : Except PyError (List (Option ℚ)) :=
  if ¬ t.cols.contains "평점" then Except.error (PyError.keyError "평점")
  else if ¬ t.cols.contains "작성일자" then Except.error (PyError.keyError "작성일자")
  else Except.ok (handle_outliers (handle_missing_values (preprocess_ratings t.ratings)))

/-- `DataLoader.get_clean_data` (load.py:171-178): loads the table, calls
`validate_schema` — whose Boolean result is discarded — and then runs
`preprocess_data` unconditionally. -/
def get_clean_data (t : RawTable) : Except PyError (List (Option ℚ)) :=
  let _ := validate_schema t.cols
  preprocess_data t

/-- A table that is missing exactly the required `이용자` (reviewer)
column. -/
def tableMissingReviewer : RawTable :=
  { cols := ["제목", "내용", "평점", "작성일자", "평가", "구분"], ratings := [some 9] }

/-- C3 counterexample: for a table missing the required column `이용자`,
`validate_schema` merely computes the missing-column set and returns
`false`, and `get_clean_data` nevertheless preprocesses the table and
produces a cleaned record set — it does not fail with any `SchemaError`
(no such error class exists in the code). -/
theorem schema_missing_counterexample :
    missing_columns tableMissingReviewer.cols = ["이용자"] ∧
    validate_schema tableMissingReviewer.cols = false ∧
    get_clean_data tableMissingReviewer = Except.ok [some 9] := by
  decide

/-- C3 (amended): for every table missing at least one required column,
`validate_schema` returns `false` (after computing exactly the missing
names), but `get_clean_data` ignores that result and preprocesses the table
exactly as it would have done without validation; no `SchemaError` is
raised and processing is not prevented. -/
theorem schema_missing_amended (t : RawTable) (h : missing_columns t.cols ≠ []) :
    validate_schema t.cols = false ∧ get_clean_data t = preprocess_data t := by
  constructor
  · unfold validate_schema
    cases hm : missing_columns t.cols with
    | nil => exact absurd hm h
    | cons a l => rfl
  · rfl

theorem schema_missing_witness :
    validate_schema tableMissingReviewer.cols = false ∧
    get_clean_data tableMissingReviewer = preprocess_data tableMissingReviewer :=
  schema_missing_amended tableMissingReviewer (by decide)

/-- A table with every required column in which every rating is null. -/
def tableAllNullRatings : RawTable :=
  { cols := ["제목", "내용", "평점", "작성일자", "평가", "이용자", "구분"],
    ratings := [none, none] }

/-- C4 counterexample: on a table whose ratings are all null, cleaning does
not fail with an `InsufficientDataError` (no such error class exists in the
code): `median()` of the all-null column is NaN, `fillna(NaN)` is a no-op,
and `get_clean_data` returns a record set in which the ratings are still
null. -/
theorem median_impute_counterexample :
    get_clean_data tableAllNullRatings = Except.ok [none, none] ∧
    get_clean_data tableAllNullRatings ≠ Except.error PyError.insufficientData := by
  decide

/-- C4 (amended): whenever the dataset has at least one non-null rating,
every null rating is replaced by the median of the non-null ratings (and
non-null ratings are untouched); when every rating is null, the cleaning
step leaves the ratings unchanged — still null — and raises no error. -/
theorem median_impute_amended (rs : List (Option ℚ)) :
    handle_missing_values rs =
      match median (rs.filterMap id) with
      | some m => rs.map (fun r => some (r.getD m))
      | none => rs := by
  unfold handle_missing_values
  by_cases h0 : 0 < rs.countP (fun r => r.isNone)
  · rw [if_pos h0]
  · rw [if_neg h0]
    cases hm : median (rs.filterMap id) with
    | none => rfl
    | some m =>
      have hall : ∀ r ∈ rs, r ≠ none := by
        intro r hr hn
        apply h0
        rw [List.countP_pos_iff]
        exact ⟨r, hr, by rw [hn]; rfl⟩
      have : rs.map (fun r => some (r.getD m)) = rs := by
        conv_rhs => rw [← List.map_id rs]
        apply List.map_congr_left
        intro r hr
        cases r with
        | some v => rfl
        | none => exact absurd rfl (hall none hr)
      show rs = rs.map (fun r => some (r.getD m))
      exact this.symm

/-- C8: the outlier step clamps rather than drops — given the interquartile
bounds computed from the non-null ratings, every rating strictly below the
lower bound becomes exactly the lower bound, every rating strictly above
the upper bound becomes exactly the upper bound, all other entries are
unchanged, and the number of records is preserved. -/
theorem outlier_clamp (rs : List (Option ℚ)) (q1 q3 : ℚ)
    (h1 : quantileLinear (Rat.divInt 1 4) (rs.filterMap id) = some q1)
    (h3 : quantileLinear (Rat.divInt 3 4) (rs.filterMap id) = some q3) :
    (handle_outliers rs).length = rs.length ∧
    handle_outliers rs = rs.map (Option.map (fun v =>
      if v < qsub q1 (qmul (Rat.divInt 3 2) (qsub q3 q1))
      then qsub q1 (qmul (Rat.divInt 3 2) (qsub q3 q1))
      else if qadd q3 (qmul (Rat.divInt 3 2) (qsub q3 q1)) < v
      then qadd q3 (qmul (Rat.divInt 3 2) (qsub q3 q1))
      else v)) := by
  have heq : handle_outliers rs = rs.map (Option.map (fun v =>
      if v < qsub q1 (qmul (Rat.divInt 3 2) (qsub q3 q1))
      then qsub q1 (qmul (Rat.divInt 3 2) (qsub q3 q1))
      else if qadd q3 (qmul (Rat.divInt 3 2) (qsub q3 q1)) < v
      then qadd q3 (qmul (Rat.divInt 3 2) (qsub q3 q1))
      else v)) := by
    unfold handle_outliers
    rw [h1, h3]
  exact ⟨by rw [heq, List.length_map], heq⟩

theorem outlier_clamp_witness :
    (handle_outliers [some 1, some 1, some 1, some 1, some 10]).length =
      ([some 1, some 1, some 1, some 1, some 10] : List (Option ℚ)).length ∧
    handle_outliers [some 1, some 1, some 1, some 1, some 10] =
      ([some 1, some 1, some 1, some 1, some 10] : List (Option ℚ)).map (Option.map (fun v =>
        if v < qsub 1 (qmul (Rat.divInt 3 2) (qsub 1 1))
        then qsub 1 (qmul (Rat.divInt 3 2) (qsub 1 1))
        else if qadd 1 (qmul (Rat.divInt 3 2) (qsub 1 1)) < v
        then qadd 1 (qmul (Rat.divInt 3 2) (qsub 1 1))
        else v)) :=
  outlier_clamp [some 1, some 1, some 1, some 1, some 10] 1 1 (by decide) (by decide)

/-- One entry of the `change_point_info` list built by
`detect_change_points` (advanced_analysis.py:285-299). -/
structure ChangePoint where
  year : ℤ
  ratingBefore : ℚ
  ratingAfter : ℚ
  change : ℚ
  increase : Bool
  deriving DecidableEq, Repr

/-- `groupby('연도')['평점'].mean()` then `sort_values('연도')`: the distinct
years in ascending order, each with the mean rating of its records. -/
def yearlySeries (df : List (ℤ × ℚ)) : List (ℤ × ℚ) :=
  (List.insertionSort (fun a b : ℤ => a ≤ b) (df.map Prod.fst).dedup).map
    (fun y => (y, qmean ((df.filter (fun rec => rec.1 == y)).map Prod.snd)))

/-- `ruptures.Pelt(model="rbf").fit(signal).predict(pen)`: `predict` first
runs its sanity check with the default `min_size = 2` and raises
`BadSegmentationParameters` when the signal has fewer than 2 samples; on an
admissible signal it returns a breakpoint list whose last entry is the
signal length.  Only the sanity-check branch is exercised by the theorems
below; the breakpoint search on longer signals is modelled as reporting no
internal breakpoint and no theorem relies on that branch. -/
def pelt_rbf_predict (nSamples : ℕ) (_pen : ℚ) : Except PyError (List ℕ) :=
  if nSamples < 2 then Except.error PyError.badSegmentationParameters
  else Except.ok [nSamples]

/-- The loop building `change_point_info` (advanced_analysis.py:285-299):
every breakpoint except the final one, kept when it indexes into the year
array, reported with the ratings just before/after and the signed, rounded
delta. -/
def changePointInfo (signal : List ℚ) (years : List ℤ) (cps : List ℕ) :
    List ChangePoint :=
  cps.dropLast.filterMap (fun cp =>
    if cp < years.length then
      some { year := years.getD cp 0
             ratingBefore := roundTo 2 (if 0 < cp then signal.getD (cp - 1) 0 else signal.getD cp 0)
             ratingAfter := roundTo 2 (if cp < signal.length then signal.getD cp 0 else signal.getD (cp - 1) 0)
             change := roundTo 2 (qsub
               (if cp < signal.length then signal.getD cp 0 else signal.getD (cp - 1) 0)
               (if 0 < cp then signal.getD (cp - 1) 0 else signal.getD cp 0))
             increase := decide (0 < qsub
               (if cp < signal.length then signal.getD cp 0 else signal.getD (cp - 1) 0)
               (if 0 < cp then signal.getD (cp - 1) 0 else signal.getD cp 0)) }
    else none)

/-- `AdvancedAnalyzer.detect_change_points` (advanced_analysis.py:263-309)
with the ruptures library available: yearly mean-rating series, Pelt
segmentation, change-point report. -/
def detect_change_points (pen : ℚ) (df : List (ℤ × ℚ)) :
    Except PyError (List ChangePoint) :=
  match pelt_rbf_predict ((yearlySeries df).map Prod.snd).length pen with
  | Except.error e => Except.error e
  | Except.ok cps =>
      Except.ok (changePointInfo ((yearlySeries df).map Prod.snd)
        ((yearlySeries df).map Prod.fst) cps)

/-- C9 counterexample: on records spanning a single year, change-point
detection does not return an empty change-point list — the segmentation
library rejects the one-sample yearly series and an exception propagates
out of `detect_change_points` (the code has no fewer-than-2-years
guard). -/
theorem change_point_counterexample :
    detect_change_points 5 [((2020 : ℤ), (5 : ℚ))] =
      Except.error PyError.badSegmentationParameters ∧
    detect_change_points 5 [((2020 : ℤ), (5 : ℚ))] ≠ Except.ok [] := by
  decide

/-- C9 (amended): whenever the records span fewer than 2 distinct years,
`detect_change_points` raises (the Pelt sanity check rejects a signal
shorter than its minimum segment size of 2) instead of returning an empty
change-point list. -/
theorem change_point_amended (pen : ℚ) (df : List (ℤ × ℚ))
    (h : ((df.map Prod.fst).dedup).length < 2) :
    detect_change_points pen df = Except.error PyError.badSegmentationParameters := by
  have hlen : ((yearlySeries df).map Prod.snd).length < 2 := by
    rw [List.length_map]
    unfold yearlySeries
    rw [List.length_map, List.length_insertionSort]
    exact h
  unfold detect_change_points pelt_rbf_predict
  rw [if_pos hlen]

theorem change_point_witness :
    detect_change_points 5 [((2021 : ℤ), (7 : ℚ))] =
      Except.error PyError.badSegmentationParameters :=
  change_point_amended 5 [((2021 : ℤ), (7 : ℚ))] (by decide)

end ReviewAnalysis
